import Mathlib

/-!
Verification of the MediaWhisperer PDF ingestion pipeline
(`apps/api/routers/pdf.py`, `apps/api/services/pdf_service.py`,
`apps/api/utils/storage.py`, `apps/api/models/pdf.py`).

Python strings are modelled as `List Char`; the Python string/`os.path`
builtins used by the code are given executable models below.  The mock
registry `mock_pdfs` is an insertion-ordered association list from integer
ids to record dicts, matching Python `dict` semantics for the operations the
code performs (lookup, overwriting assignment, deletion, `len`).
-/

/-- Python `str`, modelled as its list of characters. -/
abbrev Str := List Char

/-- Characters of a Lean string literal, used to write `Str` constants. -/
def chars (s : String) : Str := s.data

/-- Python `str.lower()` (ASCII model; every string the handlers lowercase is
ASCII). -/
def pyLower (cs : Str) : Str := cs.map Char.toLower

/-- Python `str.startswith(pre)`. -/
def pyStartsWith (cs pre : Str) : Bool := cs.take pre.length == pre

/-- Python `str.endswith(suf)`. -/
def pyEndsWith (cs suf : Str) : Bool :=
  suf.length ≤ cs.length && cs.drop (cs.length - suf.length) == suf

/-- Python `sub in s` (substring containment; the code only uses non-empty
`sub`, for which `[] → sub.isEmpty` agrees with Python). -/
def pyContains : Str → Str → Bool
  | [], sub => sub.isEmpty
  | c :: rest, sub => pyStartsWith (c :: rest) sub || pyContains rest sub

/-- First occurrence of `sep` in `cs`: the part before it and the part after
it, or `none` when `sep` does not occur. -/
def splitFirst : Str → Str → Option (Str × Str)
  | [], _ => none
  | c :: rest, sep =>
    if pyStartsWith (c :: rest) sep then some ([], (c :: rest).drop sep.length)
    else (splitFirst rest sep).map (fun p => (c :: p.1, p.2))

/-- Fuel-driven worker for `pySplit`; the fuel bounds the number of
separator occurrences, so `cs.length` steps always suffice for a non-empty
separator. -/
def pySplitAux : Nat → Str → Str → List Str
  | 0, cs, _ => [cs]
  | fuel + 1, cs, sep =>
    match splitFirst cs sep with
    | none => [cs]
    | some (pre, post) => pre :: pySplitAux fuel post sep

/-- Python `str.split(sep)` for a non-empty separator `sep`. -/
def pySplit (cs sep : Str) : List Str := pySplitAux cs.length cs sep

/-- Python `str.isdigit()` (ASCII model): non-empty and all digits. -/
def pyIsdigit (cs : Str) : Bool := !cs.isEmpty && cs.all Char.isDigit

/-- Characters matched by Python's regex class `\s` / stripped by
`str.strip()`. -/
def isPySpace (c : Char) : Bool :=
  c = ' ' || c = '\t' || c = '\n' || c = '\r' || c = '\x0b' || c = '\x0c'

/-- Python `str.strip()`. -/
def pyStrip (cs : Str) : Str :=
  ((cs.dropWhile isPySpace).reverse.dropWhile isPySpace).reverse

/-- Fuel-driven worker producing the decimal digits of `n` (most significant
first), mirroring the standard repeated-division rendering used by Python
`str(int)` and by `json.dump` for `int` dictionary keys. -/
def decimalCharsAux : Nat → Nat → Str → Str
  | 0, _, acc => acc
  | fuel + 1, n, acc =>
    if n < 10 then Nat.digitChar n :: acc
    else decimalCharsAux fuel (n / 10) (Nat.digitChar (n % 10) :: acc)

/-- Decimal rendering of a natural number, the model of Python `str(n)` for
`n ≥ 0` (used by the handlers' f-strings and by `json.dump` for `int`
keys). -/
def decimalChars (n : Nat) : Str := decimalCharsAux (n + 1) n []

/-- Python `int(s)` restricted to plain non-empty digit strings, which is the
only shape of key `json.dump` ever writes for the registry; other strings are
rejected (`ValueError`), modelled as `none`. -/
def parseDecimal (cs : Str) : Option Nat :=
  if !cs.isEmpty && cs.all Char.isDigit then
    some (cs.foldl (fun a c => 10 * a + (c.toNat - 48)) 0)
  else none

/-- Python `os.path.basename` for POSIX paths. -/
def basename (p : Str) : Str := (pySplit p (chars "/")).getLastD []

/-- Python `os.path.dirname` for POSIX paths (model: everything before the
last slash; only used to build output directory names). -/
def dirname (p : Str) : Str :=
  let parts := pySplit p (chars "/")
  if parts.length ≤ 1 then [] else List.intercalate (chars "/") parts.dropLast

/-- Python `os.path.join a b` (model for the shapes the code produces:
`b` absolute overrides, otherwise concatenation with a slash). -/
def pyJoin (a b : Str) : Str :=
  if pyStartsWith b (chars "/") then b
  else if a.isEmpty then b else a ++ chars "/" ++ b

/-- Python `os.path.abspath` (model: prefixes the working directory onto
relative paths; every path the handlers build is already absolute because
`UPLOAD_DIR` is). -/
def os_abspath (p : Str) : Str :=
  if pyStartsWith p (chars "/") then p else chars "/cwd" ++ chars "/" ++ p

/-- `os.path.splitext(p)[0]` for a path without separators (the code only
applies it to bare filenames): leading dots do not start an extension, and
the extension is cut at the last remaining dot. -/
def splitext_root (cs : Str) : Str :=
  let lead := cs.takeWhile (fun c => c = '.')
  let rest := cs.drop lead.length
  if pyContains rest (chars ".") then
    lead ++ (rest.reverse.drop ((rest.reverse.takeWhile (fun c => ¬(c = '.'))).length + 1)).reverse
  else lead ++ rest

/-- `settings.UPLOAD_DIR` (config.py line 48): an absolute directory under
the API directory; the concrete value is irrelevant to every claim. -/
def UPLOAD_DIR : Str := chars "/workspace/apps/api/uploads"

/-- `ProcessingStatus` (models/pdf.py lines 8-14). -/
inductive ProcessingStatus
  | pending
  | processing
  | completed
  | failed
deriving DecidableEq, Repr

/-- `PDFSummary` (models/pdf.py lines 32-37). -/
structure PDFSummary where
  title : Str
  key_points : List Str
  summary : Str
deriving DecidableEq, Repr

/-- `PDFPage` (models/pdf.py lines 24-29). -/
structure PDFPage where
  page_number : Nat
  text : Str
  images : List Str
deriving DecidableEq, Repr

/-- One record of the `mock_pdfs` registry: the dict built at
pdf.py lines 180-189 / 327-336.  The handlers only ever store the eight keys
written there; `markdown_path`, `image_paths` and `summary` model the
artifact keys a record could in principle carry — no handler ever writes
them, so they default to `none`. -/
structure PdfMeta where
  id : Nat
  title : Str
  description : Option Str
  filename : Str
  file_path : Str
  user_id : Nat
  status : ProcessingStatus
  created_at : Str
  markdown_path : Option Str := none
  image_paths : Option (List Str) := none
  summary : Option PDFSummary := none
deriving DecidableEq, Repr

/-- The in-memory `mock_pdfs` dictionary: insertion-ordered map from the
integer pdf id to its record. -/
abbrev Registry := List (Nat × PdfMeta)

/-- Python `mock_pdfs.get(k)`. -/
def dict_get (db : Registry) (k : Nat) : Option PdfMeta :=
  (db.find? (fun kv => kv.1 == k)).map Prod.snd

/-- Python `mock_pdfs[k] = v`: overwrite in place when the key exists,
append otherwise (dict insertion order). -/
def dict_set (db : Registry) (k : Nat) (v : PdfMeta) : Registry :=
  if db.any (fun kv => kv.1 == k) then
    db.map (fun kv => if kv.1 == k then (k, v) else kv)
  else db ++ [(k, v)]

/-- Python `del mock_pdfs[k]` (pdf.py line 637). -/
def dict_del (db : Registry) (k : Nat) : Registry :=
  db.filter (fun kv => kv.1 != k)

/-- `pdf_id = len(mock_pdfs) + 1` (pdf.py lines 160 and 311). -/
def assigned_pdf_id (db : Registry) : Nat := db.length + 1

/-- A Python exception raised during the conversion step. -/
inductive PyErr
  | typeError (msg : Str)
  | valueError (msg : Str)
deriving DecidableEq, Repr

/-- The relevant keys of the `metadata` dict returned by marker's
`text_from_rendered`: the code reads only `num_pages` and `page_number`
(pdf_service.py lines 155 and 195). -/
structure MetaDict where
  num_pages : Option Nat
  page_number : Option Nat
deriving DecidableEq, Repr

/-- Outcome of the external marker engine boundary
(`PdfConverter(...)(file_path)` followed by `text_from_rendered`,
pdf_service.py lines 136-150), treated as an opaque input:
`metadata = none` models a falsy or non-dict metadata value,
`children_count` models `len(rendered.children)` when that attribute exists,
and `images = none` models an `extracted_images` value that is not a list. -/
structure MarkerOk where
  markdown_text : Str
  metadata : Option MetaDict
  children_count : Option Nat
  images : Option (List (List Nat))
deriving DecidableEq, Repr

/-- The 4-tuple `(page_count, markdown_text, pages, summary)` returned by
`PDFProcessingService.process_pdf` (pdf_service.py lines 229 and 234-243). -/
structure Result4 where
  page_count : Nat
  markdown_text : Str
  pages : List PDFPage
  summary : PDFSummary
deriving DecidableEq, Repr

/-- Matches the regex `\x7bPAGE_\d+\x7d` at the head of the input and returns
the remainder after the match (pdf_service.py line 164). -/
def matchPageMarker : Str → Option Str
  | '\x7b' :: 'P' :: 'A' :: 'G' :: 'E' :: '_' :: rest =>
    let ds := rest.takeWhile Char.isDigit
    if ds.isEmpty then none
    else
      match rest.drop ds.length with
      | '\x7d' :: r => some r
      | _ => none
  | _ => none

/-- `len(re.findall(r"\x7bPAGE_\d+\x7d", text))` (pdf_service.py lines
164-165): counts non-overlapping page markers, fuel-driven by the text
length. -/
def countPageMarkersAux : Nat → Str → Nat
  | 0, _ => 0
  | _ + 1, [] => 0
  | fuel + 1, c :: rest =>
    match matchPageMarker (c :: rest) with
    | some r => 1 + countPageMarkersAux fuel r
    | none => countPageMarkersAux fuel rest

/-- Number of `\x7bPAGE_n\x7d` markers in a text. -/
def countPageMarkers (cs : Str) : Nat := countPageMarkersAux cs.length cs

/-- Characters of the regex class `[\s\-*]` (pdf_service.py line 176). -/
def pageSplitClassChar (c : Char) : Bool := isPySpace c || c = '-' || c = '*'

/-- Greedy-with-backtracking tail of the split regex: consume up to `k`
class characters of `r2` and then require a literal `"\n\n"`, preferring the
longest consumption, exactly as the regex engine matches `[\s\-*]*\n\n`. -/
def backtrackNl (r2 : Str) : Nat → Option Str
  | 0 => if pyStartsWith r2 (chars "\n\n") then some (r2.drop 2) else none
  | k + 1 =>
    if (r2.take (k + 1)).all pageSplitClassChar && pyStartsWith (r2.drop (k + 1)) (chars "\n\n") then
      some (r2.drop (k + 3))
    else backtrackNl r2 k

/-- Matches the split regex `\n\n\x7bPAGE_\d+\x7d[\s\-*]*\n\n`
(pdf_service.py line 176) at the head of the input, returning the remainder
after the match. -/
def matchPageSplit : Str → Option Str
  | '\n' :: '\n' :: '\x7b' :: 'P' :: 'A' :: 'G' :: 'E' :: '_' :: rest =>
    let ds := rest.takeWhile Char.isDigit
    if ds.isEmpty then none
    else
      match rest.drop ds.length with
      | '\x7d' :: r2 => backtrackNl r2 ((r2.takeWhile pageSplitClassChar).length)
      | _ => none
  | _ => none

/-- `re.split` on the page-marker pattern: leftmost matches split the text;
fuel-driven by the text length.  `acc` holds the current piece reversed. -/
def regexSplitPagesAux : Nat → Str → Str → List Str
  | 0, acc, rest => [acc.reverse ++ rest]
  | _ + 1, acc, [] => [acc.reverse]
  | fuel + 1, acc, c :: rest =>
    match matchPageSplit (c :: rest) with
    | some r => acc.reverse :: regexSplitPagesAux fuel [] r
    | none => regexSplitPagesAux fuel (c :: acc) rest

/-- `re.split(r"\n\n\x7bPAGE_\d+\x7d[\s\-*]*\n\n", markdown_text)`
(pdf_service.py line 176). -/
def regexSplitPages (cs : Str) : List Str := regexSplitPagesAux (cs.length + 1) [] cs

/-- The summary built by `PDFProcessingService.process_pdf` on success
(pdf_service.py lines 223-227): the title is `os.path.basename(file_path)`;
no part of the markdown is consulted. -/
def process_pdf_success_summary (file_path : Str) (page_count : Nat) : PDFSummary :=
  { title := basename file_path
  , key_points := [chars "Converted to markdown with marker"]
  , summary := chars "PDF with " ++ decimalChars page_count
      ++ chars " pages processed and converted to markdown" }

/-- The fallback returned when the marker engine raises
(pdf_service.py lines 234-243). -/
def process_pdf_error_result (file_path : Str) (msg : Str) : Result4 :=
  { page_count := 1
  , markdown_text := chars "Error processing PDF: " ++ msg
  , pages := [{ page_number := 1, text := chars "Processing error", images := [] }]
  , summary :=
    { title := basename file_path
    , key_points := [chars "Error during processing"]
    , summary := chars "The PDF could not be processed properly. Please try again or contact support." } }

/-- Body of `PDFProcessingService.process_pdf(file_path)`
(pdf_service.py lines 106-243).  `uuidHex8` models `uuid.uuid4().hex[:8]`
(line 124), `marker` the external engine boundary; file writes always
succeed in this model (their failure would only change the logged image
paths).  The internal try/except means the body itself never raises: it
returns a 4-tuple in both branches. -/
def process_pdf_body (file_path : Str) (uuidHex8 : Str) (marker : Except Str MarkerOk) : Result4 :=
  match marker with
  | .error e => process_pdf_error_result file_path e
  | .ok m =>
    let pdf_idS :=
      let p0 := (pySplit (basename file_path) (chars ".")).headD []
      if p0.isEmpty then uuidHex8 else p0
    let image_dir := pyJoin (dirname file_path) (pdf_idS ++ chars "_processed")
    let pc0 :=
      match m.metadata with
      | some md => md.num_pages.getD 0
      | none => m.children_count.getD 0
    let page_count :=
      if pc0 = 0 then
        let c := countPageMarkers m.markdown_text
        if c = 0 then 1 else c
      else pc0
    let page_splits :=
      if pyContains m.markdown_text (chars "\n\n" ++ ['\x7b'] ++ chars "PAGE_") then
        (regexSplitPages m.markdown_text).filter (fun p => !(pyStrip p).isEmpty)
      else [m.markdown_text]
    let pages := (page_splits.enum).map (fun ip =>
      let page_num := ip.1 + 1
      let page_images :=
        match m.images with
        | some imgs =>
          if imgs.isEmpty then []
          else
            match m.metadata with
            | some md => if md.page_number = some page_num then imgs else []
            | none => if ip.1 = 0 then imgs else []
        | none => []
      let image_paths := (page_images.enum).map (fun ximg =>
        pyJoin image_dir (chars "page_" ++ decimalChars page_num ++ chars "_img_"
          ++ decimalChars ximg.1 ++ chars ".png"))
      { page_number := page_num, text := ip.2, images := image_paths })
    { page_count := page_count
    , markdown_text := m.markdown_text
    , pages := pages
    , summary := process_pdf_success_summary file_path page_count }

/-- Number of parameters of `PDFProcessingService.process_pdf`
(pdf_service.py line 107: `process_pdf(file_path)`). -/
def process_pdf_paramCount : Nat := 1

/-- CPython call semantics for `PDFProcessingService.process_pdf`: a call
with a positional-argument count different from the signature's single
parameter raises `TypeError` before the body runs. -/
def call_process_pdf (argCount : Nat) (body : Unit → Result4) : Except PyErr Result4 :=
  if argCount = process_pdf_paramCount then .ok (body ())
  else .error (.typeError (chars "process_pdf() takes 1 positional argument but more were given"))

/-- The three names `(markdown_path, image_paths, summary)` the router binds
from the conversion call (pdf.py lines 200-205 and 347-354). -/
structure ConvOk where
  markdown_path : Str
  image_paths : List Str
  summary : PDFSummary
deriving DecidableEq, Repr

/-- Length of the tuple `process_pdf` returns (pdf_service.py line 229). -/
def result4_components : Nat := 4

/-- Number of names the router unpacks the result into (pdf.py lines
200-204). -/
def handler_unpack_targets : Nat := 3

/-- CPython tuple-unpacking semantics for the router's
`markdown_path, image_paths, summary = ...` binding: unpacking a 4-tuple
into 3 targets raises `ValueError`. -/
def unpack3of4 (_ : Result4) : Except PyErr ConvOk :=
  if h : result4_components = handler_unpack_targets then absurd h (by decide)
  else .error (.valueError (chars "too many values to unpack (expected 3)"))

/-- The router's whole conversion step
(`await PDFProcessingService.process_pdf(file_path, pdf_id, current_user.id)`
at pdf.py lines 200-205 and 347-354): a call passing three positional
arguments to a one-parameter function, whose result would then be unpacked
into three names. -/
def conv_step (file_path : Str) (uuidHex8 : Str) (marker : Except Str MarkerOk) : Except PyErr ConvOk :=
  match call_process_pdf 3 (fun _ => process_pdf_body file_path uuidHex8 marker) with
  | .error e => .error e
  | .ok r => unpack3of4 r

/-- The three-argument call always raises `TypeError` at the call site. -/
theorem conv_step_eq (file_path uuidHex8 : Str) (marker : Except Str MarkerOk) :
    conv_step file_path uuidHex8 marker =
      .error (.typeError (chars "process_pdf() takes 1 positional argument but more were given")) := rfl

/-- `secure_filename` (storage.py lines 64-79): basename, keep alphanumerics
and `._- ` and space, replace spaces by underscores, fall back to a generated
name when empty.  `uuidHex8` models `uuid.uuid4().hex[:8]`. -/
def secure_filename (filename : Str) (uuidHex8 : Str) : Str :=
  let b := basename filename
  let f1 := (b.filter (fun c =>
    c.isAlphanum || c = '.' || c = '_' || c = '-' || c = ' ')).map
    (fun c => if c = ' ' then '_' else c)
  if f1.isEmpty then chars "file_" ++ uuidHex8 else f1

/-- `save_upload_file` (storage.py lines 17-61) for the router's call shape
(a `pdf_id` is always passed): returns the stored filename and its absolute
path.  Directory creation and the file write are filesystem effects; the
router models their failure separately (`saveOk`). -/
def save_upload_file (origFilename : Str) (user_id pdf_id : Nat) (uuid1 : Str) : Str × Str :=
  let user_dir := pyJoin UPLOAD_DIR (chars "user_" ++ decimalChars user_id)
  let pdf_dir := pyJoin user_dir (chars "pdf_" ++ decimalChars pdf_id)
  let unique_filename :=
    if origFilename.isEmpty || pyLower origFilename = chars "file" then uuid1 ++ chars ".pdf"
    else secure_filename origFilename uuid1
  (unique_filename, os_abspath (pyJoin pdf_dir unique_filename))

/-- HTTP-level outcome of a handler: the `HTTPException` status classes the
router raises, plus 500 for exceptions that escape the handler (FastAPI
turns those into an internal server error). -/
inductive HandlerError
  | badRequest (detail : Str)
  | forbidden (detail : Str)
  | notFound (detail : Str)
  | internalError (detail : Str)
deriving DecidableEq, Repr

/-- Result of one mutating handler invocation: the final `mock_pdfs`
registry, the successive snapshots passed to `save_mock_db()` in call order
(each is the full registry at that save, pdf.py lines 57-67), the successive
`status` values assigned to the new document's record, and the HTTP
outcome. -/
structure Out (α : Type) where
  db : Registry
  saves : List Registry := []
  trace : List ProcessingStatus := []
  result : Except HandlerError α
deriving Repr

/-- Outcome of `requests.get(url, stream=True, timeout=30)` followed by
`raise_for_status()` (pdf.py lines 262-263): either a
`requests.RequestException` (timeout, connection error, non-2xx status), or
a response whose `Content-Type` header is `contentType`. -/
inductive FetchOutcome
  | netError (msg : Str)
  | ok (contentType : Str)
deriving DecidableEq, Repr

/-- The `upload_pdf` handler (pdf.py lines 145-227) with the conversion
step's outcome (`conv`) as an explicit argument; `saveOk` models whether
`save_upload_file`'s filesystem write succeeds, `now` the
`datetime.now().isoformat()` string, `uuid1` the uuid drawn inside
`save_upload_file`.  On a conversion failure the handler catches the
exception, marks the record failed, and still returns the merged response
(modelled by the final record; the separately merged `load_pdf_details`
dict only augments the HTTP response, never the registry). -/
def upload_pdf_core (db : Registry) (uid : Nat) (filename0 : Str)
    (titleForm : Option Str) (descr : Option Str) (now : Str) (uuid1 : Str)
    (saveOk : Bool) (conv : Str → Except PyErr ConvOk) : Out PdfMeta :=
  if !pyEndsWith (pyLower filename0) (chars ".pdf") then
    { db := db, result := .error (.badRequest (chars "File must be a PDF")) }
  else
    let pdf_id := assigned_pdf_id db
    if !saveOk then
      { db := db, result := .error (.internalError (chars "Failed to upload file: ")) }
    else
      let fnfp := save_upload_file filename0 uid pdf_id uuid1
      let title :=
        let t0 := titleForm.getD []
        if t0.isEmpty then
          let t1 := splitext_root filename0
          if t1.length < 3 || pyStartsWith t1 (chars "file") || pyIsdigit t1 then
            chars "PDF Document " ++ decimalChars (db.length + 1)
          else t1
        else t0
      let meta : PdfMeta :=
        { id := pdf_id, title := title, description := descr
        , filename := fnfp.1, file_path := fnfp.2, user_id := uid
        , status := .pending, created_at := now }
      let db1 := dict_set db pdf_id meta
      let meta2 := { meta with status := .processing }
      let db2 := dict_set db1 pdf_id meta2
      match conv fnfp.2 with
      | .ok _ =>
        let meta3 := { meta2 with status := .completed }
        let db3 := dict_set db2 pdf_id meta3
        { db := db3, saves := [db1, db2, db3]
        , trace := [.pending, .processing, .completed], result := .ok meta3 }
      | .error _ =>
        let meta3 := { meta2 with status := .failed }
        let db3 := dict_set db2 pdf_id meta3
        { db := db3, saves := [db1, db2, db3]
        , trace := [.pending, .processing, .failed], result := .ok meta3 }

/-- The `upload_pdf` handler as deployed: its conversion step is the
three-argument call of pdf.py line 205. -/
def upload_pdf (db : Registry) (uid : Nat) (filename0 : Str)
    (titleForm : Option Str) (descr : Option Str) (now : Str) (uuid1 uuid2 : Str)
    (saveOk : Bool) (marker : Except Str MarkerOk) : Out PdfMeta :=
  upload_pdf_core db uid filename0 titleForm descr now uuid1 saveOk
    (fun file_path => conv_step file_path uuid2 marker)

/-- The arXiv URL normalization at the top of `process_pdf_from_url`
(pdf.py lines 240-251). -/
def arxiv_rewrite (url : Str) : Str :=
  if pyContains (pyLower url) (chars "arxiv.org") && !pyEndsWith (pyLower url) (chars ".pdf") then
    if pyContains url (chars "/pdf/") && !pyEndsWith url (chars ".pdf") then
      url ++ chars ".pdf"
    else if pyContains url (chars "/abs/") then
      match pySplit url (chars "/abs/") with
      | [_, arxiv_id] => chars "https://arxiv.org/pdf/" ++ arxiv_id ++ chars ".pdf"
      | _ => url
    else url
  else url

/-- The `process_pdf_from_url` handler (pdf.py lines 230-392) with the
conversion step's outcome as an explicit argument.  Network failures are
caught by `except requests.RequestException` and become 400 before any
record exists.  After a conversion failure the record is marked failed and
saved, but the response line `\x7b**pdf_meta, **pdf_details\x7d` (line 379)
reads the name `pdf_details`, which is only bound in the success branch of
the inner try; the resulting `NameError` is caught by the outer
`except Exception` (line 388) and surfaces as a 500. -/
def process_pdf_from_url_core (db : Registry) (uid : Nat) (url0 : Str)
    (titleIn : Option Str) (descr : Option Str) (now : Str)
    (fetch : FetchOutcome) (conv : Str → Except PyErr ConvOk) : Out PdfMeta :=
  let url := arxiv_rewrite url0
  if !pyEndsWith (pyLower url) (chars ".pdf") then
    { db := db, result := .error (.badRequest (chars "URL must point to a PDF file")) }
  else
    match fetch with
    | .netError msg =>
      { db := db, result := .error (.badRequest (chars "Failed to download PDF from URL: " ++ msg)) }
    | .ok contentType =>
      if !pyContains contentType (chars "application/pdf")
          && !pyEndsWith (pyLower url) (chars ".pdf") then
        -- the HTTPException raised here is re-caught by the outer
        -- `except Exception` and re-raised as a 500 (pdf.py lines 268-271, 388-392)
        { db := db, result := .error (.internalError (chars "Error processing PDF from URL: ")) }
      else
        let filename :=
          let b := basename url
          if b.isEmpty then chars "url_pdf_" ++ decimalChars (db.length + 1) ++ chars ".pdf" else b
        let title :=
          let t0 := titleIn.getD []
          if t0.isEmpty then
            let t1 := splitext_root filename
            if t1.length < 3 || pyIsdigit t1 then
              let path_parts := (pySplit url (chars "/")).filter
                (fun part => !part.isEmpty && !pyStartsWith part (chars "http"))
              if 2 ≤ path_parts.length then
                chars "PDF from " ++ path_parts.getD (path_parts.length - 2) []
              else chars "PDF from URL " ++ decimalChars (db.length + 1)
            else t1
          else t0
        let pdf_id := assigned_pdf_id db
        let user_dir := pyJoin UPLOAD_DIR (chars "user_" ++ decimalChars uid)
        let pdf_dir := pyJoin user_dir (chars "pdf_" ++ decimalChars pdf_id)
        let permanent_path := os_abspath (pyJoin pdf_dir filename)
        let meta : PdfMeta :=
          { id := pdf_id, title := title, description := descr
          , filename := filename, file_path := permanent_path, user_id := uid
          , status := .pending, created_at := now }
        let db1 := dict_set db pdf_id meta
        let meta2 := { meta with status := .processing }
        let db2 := dict_set db1 pdf_id meta2
        match conv permanent_path with
        | .ok r =>
          let meta3 := { meta2 with status := .completed }
          let meta4 :=
            if pyContains (pyLower url) (chars "arxiv.org") then
              { meta3 with title := r.summary.title }
            else meta3
          let db3 := dict_set db2 pdf_id meta4
          { db := db3, saves := [db1, db2, db3]
          , trace := [.pending, .processing, .completed], result := .ok meta4 }
        | .error _ =>
          let meta3 := { meta2 with status := .failed }
          let db3 := dict_set db2 pdf_id meta3
          { db := db3, saves := [db1, db2, db3]
          , trace := [.pending, .processing, .failed]
          , result := .error (.internalError
              (chars "Error processing PDF from URL: name pdf_details is not defined")) }

/-- The `process_pdf_from_url` handler as deployed: its conversion step is
the three-argument call of pdf.py line 352. -/
def process_pdf_from_url (db : Registry) (uid : Nat) (url0 : Str)
    (titleIn : Option Str) (descr : Option Str) (now : Str) (uuid2 : Str)
    (fetch : FetchOutcome) (marker : Except Str MarkerOk) : Out PdfMeta :=
  process_pdf_from_url_core db uid url0 titleIn descr now fetch
    (fun file_path => conv_step file_path uuid2 marker)

/-- Result of `load_pdf_details` (pdf.py lines 91-133) when the document's
directory exists: a dict that always carries both a `markdown` key (the
first `*.md` file's content, or `None`) and an `images` key.  When neither
the new nor the legacy directory exists the function returns `None`,
modelled by wrapping this structure in `Option` at each call site. -/
structure LoadedDetails where
  markdown : Option Str
  images : List Str
deriving DecidableEq, Repr

/-- The `get_pdf` handler (pdf.py lines 407-451).  `details?` is the
`load_pdf_details` result determined by the filesystem.  When it is `None`,
the membership test `"markdown" not in pdf_details` (line 437) raises
`TypeError` on `None`, which FastAPI surfaces as a 500; when it is a dict,
the `markdown` key is always present, so that 400 branch never fires. -/
def get_pdf (db : Registry) (uid pdf_id : Nat) (details? : Option LoadedDetails) :
    Except HandlerError (PdfMeta × LoadedDetails) :=
  match dict_get db pdf_id with
  | none => .error (.notFound (chars "PDF not found"))
  | some meta =>
    if meta.user_id ≠ uid then .error (.forbidden (chars "Access denied"))
    else
      match details? with
      | none => .error (.internalError (chars "argument of type NoneType is not iterable"))
      | some d => .ok (meta, d)

/-- The `get_pdf_image` handler (pdf.py lines 454-508).  It takes no
authenticated user at all: after the path-traversal check it looks the
record up, reads the owner id out of the record itself (a falsy owner id 0
is a 500), and serves the file if it exists — with no comparison against any
requesting user.  `fileExists` and `isFile` model the filesystem tests. -/
def get_pdf_image (db : Registry) (pdf_id : Nat) (filename : Str)
    (fileExists isFile : Bool) : Except HandlerError Str :=
  if pyContains filename (chars "..") || pyStartsWith filename (chars "/") then
    .error (.badRequest (chars "Invalid filename"))
  else
    match dict_get db pdf_id with
    | none => .error (.notFound (chars "Image not found"))
    | some meta =>
      if meta.user_id = 0 then .error (.internalError (chars "Internal server error"))
      else
        let user_dir := pyJoin UPLOAD_DIR (chars "user_" ++ decimalChars meta.user_id)
        let pdf_dir := pyJoin user_dir (chars "pdf_" ++ decimalChars pdf_id)
        let file_path := pyJoin pdf_dir filename
        if !fileExists then .error (.notFound (chars "Image not found"))
        else if !isFile then .error (.badRequest (chars "Invalid path"))
        else .ok file_path

/-- The `get_pdf_content` handler (pdf.py lines 511-549). -/
def get_pdf_content (db : Registry) (uid pdf_id : Nat) (details? : Option LoadedDetails) :
    Except HandlerError (Option Str × List Str) :=
  match dict_get db pdf_id with
  | none => .error (.notFound (chars "PDF not found"))
  | some meta =>
    if meta.user_id ≠ uid then .error (.forbidden (chars "Access denied"))
    else if meta.status ≠ .completed then
      .error (.badRequest (chars "PDF processing not complete. Current status: "))
    else
      match details? with
      | some d => .ok (d.markdown, d.images)
      | none => .error (.badRequest (chars "PDF details do not contain markdown or images"))

/-- The `get_pdf_summary` handler (pdf.py lines 552-587).  The dict
`load_pdf_details` returns never carries a `summary` key (it holds only
`markdown` and `images`, pdf.py lines 130-133), so after the ownership and
status checks the handler always falls through to the 400. -/
def get_pdf_summary (db : Registry) (uid pdf_id : Nat) (_details? : Option LoadedDetails) :
    Except HandlerError PDFSummary :=
  match dict_get db pdf_id with
  | none => .error (.notFound (chars "PDF not found"))
  | some meta =>
    if meta.user_id ≠ uid then .error (.forbidden (chars "Access denied"))
    else if meta.status ≠ .completed then
      .error (.badRequest (chars "PDF processing not complete. Current status: "))
    else
      .error (.badRequest (chars "PDF summary not found"))

/-- The `delete_pdf` handler (pdf.py lines 590-642): ownership-checked
deletion; the file and directory removals are filesystem effects with no
registry impact, then the record is removed and the registry saved. -/
def delete_pdf (db : Registry) (uid pdf_id : Nat) : Out Unit :=
  match dict_get db pdf_id with
  | none => { db := db, result := .error (.notFound (chars "PDF not found")) }
  | some meta =>
    if meta.user_id ≠ uid then
      { db := db, result := .error (.forbidden (chars "Access denied")) }
    else
      let db1 := dict_del db pdf_id
      { db := db1, saves := [db1], result := .ok () }

/-- `json.dump(mock_pdfs, f)` (pdf.py line 64): integer keys are rendered as
their decimal strings in the snapshot file. -/
def dump_db (db : Registry) : List (Str × PdfMeta) :=
  db.map (fun kv => (decimalChars kv.1, kv.2))

/-- The startup reload (pdf.py lines 30-44): every key of the loaded
snapshot is passed through `int(key)`; keys that parse become integer keys,
the rest stay strings. -/
def load_db (f : List (Str × PdfMeta)) : List ((Nat ⊕ Str) × PdfMeta) :=
  f.map (fun kv =>
    match parseDecimal kv.1 with
    | some n => (Sum.inl n, kv.2)
    | none => (Sum.inr kv.1, kv.2))

/-- An in-memory registry viewed with its (integer) keys embedded into the
loaded-key type, for stating the reload round trip. -/
def embedReg (db : Registry) : List ((Nat ⊕ Str) × PdfMeta) :=
  db.map (fun kv => (Sum.inl kv.1, kv.2))

/-- Registry states producible by the deployed mutating handlers starting
from the empty registry. -/
inductive Reachable : Registry → Prop
  | empty : Reachable []
  | upload (db : Registry) (uid : Nat) (filename0 : Str) (titleForm descr : Option Str)
      (now uuid1 uuid2 : Str) (saveOk : Bool) (marker : Except Str MarkerOk) :
      Reachable db →
      Reachable (upload_pdf db uid filename0 titleForm descr now uuid1 uuid2 saveOk marker).db
  | fromUrl (db : Registry) (uid : Nat) (url0 : Str) (titleIn descr : Option Str)
      (now uuid2 : Str) (fetch : FetchOutcome) (marker : Except Str MarkerOk) :
      Reachable db →
      Reachable (process_pdf_from_url db uid url0 titleIn descr now uuid2 fetch marker).db
  | delete (db : Registry) (uid pdf_id : Nat) :
      Reachable db → Reachable (delete_pdf db uid pdf_id).db

/-- Reference form of the decimal rendering, by well-founded recursion. -/
def decimalSpec (n : Nat) : Str :=
  if _h : n < 10 then [Nat.digitChar n]
  else decimalSpec (n / 10) ++ [Nat.digitChar (n % 10)]
termination_by n
decreasing_by exact Nat.div_lt_self (by omega) (by omega)

theorem decimalCharsAux_eq (fuel : Nat) : ∀ n acc, n < fuel →
    decimalCharsAux fuel n acc = decimalSpec n ++ acc := by
  induction fuel with
  | zero => intro n acc h; omega
  | succ f ih =>
    intro n acc h
    by_cases h10 : n < 10
    · simp only [decimalCharsAux, if_pos h10]
      rw [decimalSpec, dif_pos h10]
      rfl
    · have hdiv : n / 10 < n := Nat.div_lt_self (by omega) (by omega)
      simp only [decimalCharsAux, if_neg h10]
      rw [ih (n / 10) _ (by omega)]
      conv_rhs => rw [decimalSpec]
      rw [dif_neg h10]
      simp [List.append_assoc]

theorem decimalChars_eq_spec (n : Nat) : decimalChars n = decimalSpec n := by
  rw [decimalChars, decimalCharsAux_eq (n + 1) n [] (by omega), List.append_nil]

theorem digitChar_isDigit (d : Nat) (h : d < 10) : (Nat.digitChar d).isDigit = true := by
  interval_cases d <;> decide

theorem digitChar_toNat (d : Nat) (h : d < 10) : (Nat.digitChar d).toNat - 48 = d := by
  interval_cases d <;> decide

theorem decimalSpec_all_digits (n : Nat) : (decimalSpec n).all Char.isDigit = true := by
  induction n using Nat.strong_induction_on with
  | _ n ih =>
    rw [decimalSpec]
    by_cases h10 : n < 10
    · rw [dif_pos h10]
      simp [digitChar_isDigit n h10]
    · rw [dif_neg h10]
      have hdiv : n / 10 < n := Nat.div_lt_self (by omega) (by omega)
      simp [List.all_append, ih (n / 10) hdiv,
        digitChar_isDigit (n % 10) (Nat.mod_lt _ (by omega))]

theorem decimalSpec_ne_nil (n : Nat) : decimalSpec n ≠ [] := by
  rw [decimalSpec]
  by_cases h10 : n < 10
  · rw [dif_pos h10]; simp
  · rw [dif_neg h10]; simp

theorem decimalSpec_foldl (n : Nat) : ∀ a : Nat,
    (decimalSpec n).foldl (fun x c => 10 * x + (c.toNat - 48)) a =
      a * 10 ^ (decimalSpec n).length + n := by
  induction n using Nat.strong_induction_on with
  | _ n ih =>
    intro a
    rw [decimalSpec]
    by_cases h10 : n < 10
    · rw [dif_pos h10]
      simp [digitChar_toNat n h10]
      omega
    · rw [dif_neg h10]
      have hdiv : n / 10 < n := Nat.div_lt_self (by omega) (by omega)
      rw [List.foldl_append, ih (n / 10) hdiv a]
      simp only [List.foldl_cons, List.foldl_nil, List.length_append, List.length_cons,
        List.length_nil]
      rw [digitChar_toNat (n % 10) (Nat.mod_lt _ (by omega))]
      have hmod := Nat.div_add_mod n 10
      have hpow : (10 : Nat) ^ ((decimalSpec (n / 10)).length + 1) =
          10 ^ (decimalSpec (n / 10)).length * 10 := by rw [pow_succ]
      rw [hpow]
      ring_nf
      omega

/-- Rendering an integer key with `str` and reading it back with `int`
recovers the integer. -/
theorem parseDecimal_decimalChars (n : Nat) : parseDecimal (decimalChars n) = some n := by
  rw [decimalChars_eq_spec, parseDecimal]
  have hne : (decimalSpec n).isEmpty = false := by
    cases hsp : decimalSpec n with
    | nil => exact absurd hsp (decimalSpec_ne_nil n)
    | cons c cs => rfl
  rw [hne, decimalSpec_all_digits n]
  simp only [Bool.not_false, Bool.and_self, if_pos]
  rw [decimalSpec_foldl n 0]
  simp


/-- Removes tag spans delimited by angle brackets from a text; the flag says
whether the scan is currently inside a tag. -/
def stripTagsAux : Bool → Str → Str
  | _, [] => []
  | true, c :: cs => if c = '>' then stripTagsAux false cs else stripTagsAux true cs
  | false, c :: cs => if c = '<' then stripTagsAux true cs else c :: stripTagsAux false cs

/-- Removes inline markup tags from a text. -/
def stripTags (cs : Str) : Str := stripTagsAux false cs

/-- Modelled from the spec: the title-extraction rule of spec sections 4.2
and 8, which no code in the repository implements — scan the markdown for
the first line matching the leading-heading pattern (`# <text>`), strip any
inline markup tags from the captured text; if no heading is found, use the
source filename without its extension. -/
def spec_extract_title (markdown : Str) (filename : Str) : Str :=
  match (pySplit markdown (chars "\n")).find? (fun l => pyStartsWith l (chars "# ")) with
  | some l => stripTags (l.drop 2)
  | none => splitext_root filename

/-- Status transitions the spec's lifecycle allows. -/
def stepOk : ProcessingStatus → ProcessingStatus → Prop
  | .pending, .processing => True
  | .processing, .completed => True
  | .processing, .failed => True
  | _, _ => False

/-- A registry record carrying none of the three artifact attachments. -/
def no_artifacts (m : PdfMeta) : Prop :=
  m.markdown_path = none ∧ m.image_paths = none ∧ m.summary = none

/-- Whether a handler outcome is the Forbidden (403) condition. -/
def isForbidden {α : Type} : Except HandlerError α → Bool
  | .error (.forbidden _) => true
  | _ => false

theorem dict_get_set_self (db : Registry) (k : Nat) (v : PdfMeta) :
    dict_get (dict_set db k v) k = some v := by
  induction db with
  | nil => simp [dict_set, dict_get]
  | cons hd tl ih =>
    by_cases hk : hd.1 = k
    · have hany : (hd :: tl).any (fun kv => kv.1 == k) = true := by
        simp [List.any_cons, hk]
      rw [dict_set, if_pos hany]
      simp [dict_get, hk]
    · by_cases ha : tl.any (fun kv => kv.1 == k) = true
      · have hany : (hd :: tl).any (fun kv => kv.1 == k) = true := by
          simp [List.any_cons, ha]
        rw [dict_set, if_pos hany]
        rw [dict_set, if_pos ha] at ih
        simpa [dict_get, hk] using ih
      · have hk' : (hd.1 == k) = false := by simp [hk]
        have ha' : tl.any (fun kv => kv.1 == k) = false := by
          revert ha
          cases tl.any (fun kv => kv.1 == k) <;> simp
        have hany : (hd :: tl).any (fun kv => kv.1 == k) = false := by
          rw [List.any_cons, hk', ha']
          rfl
        rw [dict_set, if_neg (by rw [hany]; exact Bool.false_ne_true)]
        rw [dict_set, if_neg (by rw [ha']; exact Bool.false_ne_true)] at ih
        simpa [dict_get, hk] using ih

theorem dict_get_eq_none_iff (db : Registry) (k : Nat) :
    dict_get db k = none ↔ ∀ kv ∈ db, kv.1 ≠ k := by
  simp [dict_get, List.find?_eq_none]

theorem mem_dict_set (db : Registry) (k : Nat) (v : PdfMeta) :
    ∀ kv ∈ dict_set db k v, kv.2 = v ∨ kv ∈ db := by
  intro kv hkv
  rw [dict_set] at hkv
  split at hkv
  · obtain ⟨x, hx, hfx⟩ := List.mem_map.mp hkv
    by_cases hxk : x.1 = k
    · left
      rw [← hfx]
      simp [hxk]
    · right
      rw [← hfx]
      simpa [hxk] using hx
  · rcases List.mem_append.mp hkv with h | h
    · right; exact h
    · left
      have : kv = (k, v) := by simpa using h
      rw [this]

theorem mem_dict_del (db : Registry) (k : Nat) :
    ∀ kv ∈ dict_del db k, kv ∈ db := by
  intro kv h
  exact (List.mem_filter.mp h).1

/-- C1: for every upload accepted by the upload endpoint (filename ends in
`.pdf` and the source file is saved) and for every URL ingestion whose
download succeeds, the conversion invocation raises (three positional
arguments against the one-parameter `PDFProcessingService.process_pdf`), so
the status recorded in the registry when the handler finishes is always
`failed`, and no markdown, image, or summary artifact is ever attached to
the record. -/
theorem c1_conversion_always_fails (db : Registry) (uid : Nat)
    (filename0 url0 : Str) (titleForm titleIn descr : Option Str)
    (now uuid1 uuid2 ct : Str) (marker : Except Str MarkerOk) :
    (pyEndsWith (pyLower filename0) (chars ".pdf") = true →
      ∃ m, (upload_pdf db uid filename0 titleForm descr now uuid1 uuid2 true marker).result = .ok m ∧
        dict_get (upload_pdf db uid filename0 titleForm descr now uuid1 uuid2 true marker).db
          (assigned_pdf_id db) = some m ∧
        m.status = .failed ∧ m.markdown_path = none ∧ m.image_paths = none ∧ m.summary = none) ∧
    (pyEndsWith (pyLower (arxiv_rewrite url0)) (chars ".pdf") = true →
      ∃ m, dict_get (process_pdf_from_url db uid url0 titleIn descr now uuid2
            (.ok ct) marker).db (assigned_pdf_id db) = some m ∧
        m.status = .failed ∧ m.markdown_path = none ∧ m.image_paths = none ∧ m.summary = none) := by
  constructor
  · intro h
    simp only [upload_pdf, upload_pdf_core, conv_step_eq, h, Bool.not_true, Bool.false_eq_true,
      if_false, Bool.not_false, if_true]
    exact ⟨_, rfl, dict_get_set_self _ _ _, rfl, rfl, rfl, rfl⟩
  · intro h
    simp only [process_pdf_from_url, process_pdf_from_url_core, conv_step_eq, h, Bool.not_true,
      Bool.and_false, Bool.false_eq_true, if_false]
    exact ⟨_, dict_get_set_self _ _ _, rfl, rfl, rfl, rfl⟩

/-- Witness for C1 at a concrete accepted upload and a concrete successful
download. -/
theorem c1_witness :
    (pyEndsWith (pyLower (chars "doc.pdf")) (chars ".pdf") = true) ∧
    (pyEndsWith (pyLower (arxiv_rewrite (chars "https://x.org/a.pdf"))) (chars ".pdf") = true) ∧
    (∃ m, (upload_pdf [] 7 (chars "doc.pdf") none none (chars "t") (chars "u1") (chars "u2")
        true (.error [])).result = .ok m ∧
      dict_get (upload_pdf [] 7 (chars "doc.pdf") none none (chars "t") (chars "u1") (chars "u2")
          true (.error [])).db (assigned_pdf_id []) = some m ∧
      m.status = .failed ∧ m.markdown_path = none ∧ m.image_paths = none ∧ m.summary = none) ∧
    (∃ m, dict_get (process_pdf_from_url [] 7 (chars "https://x.org/a.pdf") none none (chars "t")
          (chars "u2") (.ok (chars "application/pdf")) (.error [])).db (assigned_pdf_id []) = some m ∧
      m.status = .failed ∧ m.markdown_path = none ∧ m.image_paths = none ∧ m.summary = none) :=
  ⟨by decide, by decide,
    (c1_conversion_always_fails [] 7 (chars "doc.pdf") (chars "https://x.org/a.pdf") none none none
      (chars "t") (chars "u1") (chars "u2") (chars "application/pdf") (.error [])).1 (by decide),
    (c1_conversion_always_fails [] 7 (chars "doc.pdf") (chars "https://x.org/a.pdf") none none none
      (chars "t") (chars "u1") (chars "u2") (chars "application/pdf") (.error [])).2 (by decide)⟩

/-- C7: for every valid upload the document's recorded status values stay
within the four-value lifecycle, move only forward through
pending → processing → (completed | failed), and never jump from pending
directly to a terminal status: the handler's status assignments are exactly
[pending, processing, completed] or [pending, processing, failed] for an
arbitrary conversion outcome, and the deployed handler (whose conversion
call always raises) always produces the failed variant. -/
theorem c7_status_lifecycle (db : Registry) (uid : Nat) (filename0 : Str)
    (titleForm descr : Option Str) (now uuid1 uuid2 : Str)
    (conv : Str → Except PyErr ConvOk) (marker : Except Str MarkerOk)
    (h : pyEndsWith (pyLower filename0) (chars ".pdf") = true) :
    ((upload_pdf_core db uid filename0 titleForm descr now uuid1 true conv).trace =
        [.pending, .processing, .completed] ∨
      (upload_pdf_core db uid filename0 titleForm descr now uuid1 true conv).trace =
        [.pending, .processing, .failed]) ∧
    (upload_pdf_core db uid filename0 titleForm descr now uuid1 true conv).trace.head? =
      some .pending ∧
    List.Chain' stepOk (upload_pdf_core db uid filename0 titleForm descr now uuid1 true conv).trace ∧
    (∀ s ∈ (upload_pdf_core db uid filename0 titleForm descr now uuid1 true conv).trace,
      s = .pending ∨ s = .processing ∨ s = .completed ∨ s = .failed) ∧
    (upload_pdf db uid filename0 titleForm descr now uuid1 uuid2 true marker).trace =
      [.pending, .processing, .failed] := by
  have htr : (upload_pdf_core db uid filename0 titleForm descr now uuid1 true conv).trace =
      [.pending, .processing, .completed] ∨
    (upload_pdf_core db uid filename0 titleForm descr now uuid1 true conv).trace =
      [.pending, .processing, .failed] := by
    simp only [upload_pdf_core, h, Bool.not_true, Bool.false_eq_true, if_false, Bool.not_false,
      if_true]
    cases hc : conv (save_upload_file filename0 uid (assigned_pdf_id db) uuid1).2 with
    | ok r => left; rfl
    | error e => right; rfl
  have hdep : (upload_pdf db uid filename0 titleForm descr now uuid1 uuid2 true marker).trace =
      [.pending, .processing, .failed] := by
    simp only [upload_pdf, upload_pdf_core, conv_step_eq, h, Bool.not_true, Bool.false_eq_true,
      if_false]
  refine ⟨htr, ?_, ?_, ?_, hdep⟩
  · rcases htr with h1 | h1 <;> rw [h1] <;> rfl
  · rcases htr with h1 | h1 <;> rw [h1] <;>
      exact List.chain'_cons.mpr ⟨trivial, List.chain'_cons.mpr ⟨trivial, List.chain'_singleton _⟩⟩
  · intro s hs
    rcases htr with h1 | h1 <;> rw [h1] at hs <;> simp at hs <;>
      rcases hs with h2 | h2 | h2 <;> simp [h2]

/-- Witness for C7 at a concrete accepted upload. -/
theorem c7_witness :
    (pyEndsWith (pyLower (chars "doc.pdf")) (chars ".pdf") = true) ∧
    (upload_pdf [] 7 (chars "doc.pdf") none none (chars "t") (chars "u1") (chars "u2")
      true (.error [])).trace = [.pending, .processing, .failed] :=
  ⟨by decide,
    (c7_status_lifecycle [] 7 (chars "doc.pdf") none none (chars "t") (chars "u1") (chars "u2")
      (fun _ => .error (.typeError [])) (.error []) (by decide)).2.2.2.2⟩

theorem upload_db_mem (db : Registry) (uid : Nat) (filename0 : Str)
    (titleForm descr : Option Str) (now uuid1 uuid2 : Str) (saveOk : Bool)
    (marker : Except Str MarkerOk) :
    ∀ kv ∈ (upload_pdf db uid filename0 titleForm descr now uuid1 uuid2 saveOk marker).db,
      kv ∈ db ∨ (no_artifacts kv.2 ∧ kv.2.status ≠ .completed) := by
  intro kv hkv
  simp only [upload_pdf, upload_pdf_core, conv_step_eq] at hkv
  split at hkv
  · left; exact hkv
  · split at hkv
    · left; exact hkv
    · rcases mem_dict_set _ _ _ kv hkv with h | h
      · right
        rw [h]
        exact ⟨⟨rfl, rfl, rfl⟩, by simp⟩
      · rcases mem_dict_set _ _ _ kv h with h2 | h2
        · right
          rw [h2]
          exact ⟨⟨rfl, rfl, rfl⟩, by simp⟩
        · rcases mem_dict_set _ _ _ kv h2 with h3 | h3
          · right
            rw [h3]
            exact ⟨⟨rfl, rfl, rfl⟩, by simp⟩
          · left; exact h3

theorem url_db_mem (db : Registry) (uid : Nat) (url0 : Str)
    (titleIn descr : Option Str) (now uuid2 : Str) (fetch : FetchOutcome)
    (marker : Except Str MarkerOk) :
    ∀ kv ∈ (process_pdf_from_url db uid url0 titleIn descr now uuid2 fetch marker).db,
      kv ∈ db ∨ (no_artifacts kv.2 ∧ kv.2.status ≠ .completed) := by
  intro kv hkv
  cases fetch with
  | netError msg =>
    simp only [process_pdf_from_url, process_pdf_from_url_core, conv_step_eq] at hkv
    split at hkv
    · left; exact hkv
    · left; exact hkv
  | ok ct =>
    simp only [process_pdf_from_url, process_pdf_from_url_core, conv_step_eq] at hkv
    split at hkv
    · left; exact hkv
    · split at hkv
      · left; exact hkv
      · rcases mem_dict_set _ _ _ kv hkv with h | h
        · right
          rw [h]
          exact ⟨⟨rfl, rfl, rfl⟩, by simp⟩
        · rcases mem_dict_set _ _ _ kv h with h2 | h2
          · right
            rw [h2]
            exact ⟨⟨rfl, rfl, rfl⟩, by simp⟩
          · rcases mem_dict_set _ _ _ kv h2 with h3 | h3
            · right
              rw [h3]
              exact ⟨⟨rfl, rfl, rfl⟩, by simp⟩
            · left; exact h3

theorem delete_db_mem (db : Registry) (uid pdf_id : Nat) :
    ∀ kv ∈ (delete_pdf db uid pdf_id).db, kv ∈ db := by
  intro kv hkv
  simp only [delete_pdf] at hkv
  split at hkv
  · exact hkv
  · split at hkv
    · exact hkv
    · exact mem_dict_del _ _ kv hkv

/-- In every registry state the deployed handlers can produce, no record
carries any artifact attachment — whatever its status — and the `completed`
status itself never occurs, because the conversion call always raises. -/
theorem reachable_no_artifacts (db : Registry) (h : Reachable db) :
    ∀ kv ∈ db, no_artifacts kv.2 ∧ kv.2.status ≠ .completed ∧
      (kv.2.status = .failed → kv.2.markdown_path = none ∧ kv.2.summary = none) := by
  induction h with
  | empty => intro kv hkv; simp at hkv
  | upload db' uid fn tf d now u1 u2 sOk mk _ ih =>
    intro kv hkv
    rcases upload_db_mem db' uid fn tf d now u1 u2 sOk mk kv hkv with h1 | h1
    · exact ih kv h1
    · exact ⟨h1.1, h1.2, fun _ => ⟨h1.1.1, h1.1.2.2⟩⟩
  | fromUrl db' uid url0 ti d now u2 fetch mk _ ih =>
    intro kv hkv
    rcases url_db_mem db' uid url0 ti d now u2 fetch mk kv hkv with h1 | h1
    · exact ih kv h1
    · exact ⟨h1.1, h1.2, fun _ => ⟨h1.1.1, h1.1.2.2⟩⟩
  | delete db' uid pid _ ih =>
    intro kv hkv
    exact ih kv (delete_db_mem db' uid pid kv hkv)

/-- C3: for every document in every registry state the deployed handlers can
produce, if its status is `completed` then it has a non-null markdown
artifact path and a summary attached to its record, and if its status is
`failed` then it has neither.  The failed half is proved directly (no
handler ever writes an artifact field); the completed half holds because
the `completed` status never occurs in a reachable registry — the
conversion call always raises — a fact the theorem records explicitly as
its last conjunct. -/
theorem c3_completed_failed_artifacts (db : Registry) (h : Reachable db) :
    ∀ kv ∈ db,
      (kv.2.status = .completed → kv.2.markdown_path ≠ none ∧ kv.2.summary ≠ none) ∧
      (kv.2.status = .failed → kv.2.markdown_path = none ∧ kv.2.summary = none) ∧
      kv.2.status ≠ .completed := by
  intro kv hkv
  obtain ⟨_, hnc, hf⟩ := reachable_no_artifacts db h kv hkv
  exact ⟨fun hc => absurd hc hnc, hf, hnc⟩

/-- Witness for C3 at a concrete reachable registry holding one (failed)
document. -/
theorem c3_witness :
    Reachable (upload_pdf [] 7 (chars "doc.pdf") none none (chars "t") (chars "u1") (chars "u2")
      true (.error [])).db ∧
    ∀ kv ∈ (upload_pdf [] 7 (chars "doc.pdf") none none (chars "t") (chars "u1") (chars "u2")
        true (.error [])).db,
      (kv.2.status = .completed → kv.2.markdown_path ≠ none ∧ kv.2.summary ≠ none) ∧
      (kv.2.status = .failed → kv.2.markdown_path = none ∧ kv.2.summary = none) ∧
      kv.2.status ≠ .completed :=
  ⟨Reachable.upload [] 7 (chars "doc.pdf") none none (chars "t") (chars "u1") (chars "u2")
      true (.error []) Reachable.empty,
    c3_completed_failed_artifacts _
      (Reachable.upload [] 7 (chars "doc.pdf") none none (chars "t") (chars "u1") (chars "u2")
        true (.error []) Reachable.empty)⟩

/-- C4 counterexample: create two documents, delete the first, and the next
assigned ID (`len + 1 = 2`) collides with the surviving document's ID — so
`len(mock_pdfs) + 1` is not "the next unused integer" once a deletion has
happened. -/
theorem c4_counterexample :
    (let db1 := (upload_pdf [] 1 (chars "a.pdf") (some (chars "Alpha")) none (chars "t1")
        (chars "u1") (chars "u2") true (.error [])).db
     let db2 := (upload_pdf db1 1 (chars "b.pdf") (some (chars "Beta")) none (chars "t2")
        (chars "u3") (chars "u4") true (.error [])).db
     let db3 := (delete_pdf db2 1 1).db
     assigned_pdf_id db3 = 2 ∧ (dict_get db3 (assigned_pdf_id db3)).isSome = true) := by decide

/-- C4 (amended): the created document's ID is assigned as
`len(registry) + 1`; that ID is fresh whenever the registry's keys are
exactly 1..len (which holds after any sequence of creations with no
deletion), but after a deletion it can collide with an existing document's
ID, in which case the dict assignment overwrites that document. -/
theorem c4_fresh_when_contiguous (db : Registry)
    (h : db.map Prod.fst = List.range' 1 db.length) :
    dict_get db (assigned_pdf_id db) = none := by
  rw [dict_get_eq_none_iff]
  intro kv hkv
  have h1 : kv.1 ∈ db.map Prod.fst := List.mem_map_of_mem _ hkv
  rw [h] at h1
  have h2 := List.mem_range'_1.mp h1
  unfold assigned_pdf_id
  omega

/-- Witness for C4 at a one-document registry with contiguous keys. -/
theorem c4_witness :
    ([((1 : Nat), (⟨1, chars "T", none, chars "f.pdf", chars "/p", 1, .pending, chars "t",
        none, none, none⟩ : PdfMeta))].map Prod.fst = List.range' 1 1) ∧
    dict_get [((1 : Nat), (⟨1, chars "T", none, chars "f.pdf", chars "/p", 1, .pending, chars "t",
        none, none, none⟩ : PdfMeta))]
      (assigned_pdf_id [((1 : Nat), (⟨1, chars "T", none, chars "f.pdf", chars "/p", 1, .pending,
        chars "t", none, none, none⟩ : PdfMeta))]) = none :=
  ⟨by decide, c4_fresh_when_contiguous _ (by decide)⟩

/-- C5 counterexample: the image-serving endpoint performs no ownership
verification at all — it takes no requesting user and can never produce the
Forbidden condition — so a document owned by user 42 has its image served
to any requester. -/
theorem c5_counterexample :
    (dict_get [((1 : Nat), (⟨1, chars "T", none, chars "f.pdf", chars "/p", 42, .completed,
        chars "t", none, none, none⟩ : PdfMeta))] 1).isSome = true ∧
    (get_pdf_image [((1 : Nat), (⟨1, chars "T", none, chars "f.pdf", chars "/p", 42, .completed,
        chars "t", none, none, none⟩ : PdfMeta))] 1 (chars "fig1.png") true true).isOk = true ∧
    (∀ fe isf : Bool,
      isForbidden (get_pdf_image [((1 : Nat), (⟨1, chars "T", none, chars "f.pdf", chars "/p", 42,
        .completed, chars "t", none, none, none⟩ : PdfMeta))] 1 (chars "fig1.png") fe isf) =
        false) := by decide

/-- C5 (amended): the detail, content, summary and delete endpoints all
verify the requester against the record's owner — an existing document
requested by a non-owner yields Forbidden, and a missing ID yields
NotFound — but the image endpoint performs no ownership check and can never
return Forbidden. -/
theorem c5_ownership_checks (db : Registry) (uid pdf_id : Nat)
    (details? : Option LoadedDetails) (fn : Str) (fe isf : Bool) :
    (dict_get db pdf_id = none →
      get_pdf db uid pdf_id details? = .error (.notFound (chars "PDF not found")) ∧
      get_pdf_content db uid pdf_id details? = .error (.notFound (chars "PDF not found")) ∧
      get_pdf_summary db uid pdf_id details? = .error (.notFound (chars "PDF not found")) ∧
      (delete_pdf db uid pdf_id).result = .error (.notFound (chars "PDF not found"))) ∧
    (∀ m, dict_get db pdf_id = some m → m.user_id ≠ uid →
      get_pdf db uid pdf_id details? = .error (.forbidden (chars "Access denied")) ∧
      get_pdf_content db uid pdf_id details? = .error (.forbidden (chars "Access denied")) ∧
      get_pdf_summary db uid pdf_id details? = .error (.forbidden (chars "Access denied")) ∧
      (delete_pdf db uid pdf_id).result = .error (.forbidden (chars "Access denied"))) ∧
    isForbidden (get_pdf_image db pdf_id fn fe isf) = false := by
  refine ⟨?_, ?_, ?_⟩
  · intro h
    refine ⟨?_, ?_, ?_, ?_⟩ <;> simp [get_pdf, get_pdf_content, get_pdf_summary, delete_pdf, h]
  · intro m hm hne
    refine ⟨?_, ?_, ?_, ?_⟩ <;>
      simp [get_pdf, get_pdf_content, get_pdf_summary, delete_pdf, hm, hne]
  · unfold get_pdf_image
    split
    · rfl
    · split
      · rfl
      · split
        · rfl
        · split
          · rfl
          · split
            · rfl
            · rfl

/-- Witness for C5 at a concrete registry: user 2 requesting user 1's
document is Forbidden, a missing ID is NotFound. -/
theorem c5_witness :
    (dict_get [((1 : Nat), (⟨1, chars "T", none, chars "f.pdf", chars "/p", 1, .pending, chars "t",
        none, none, none⟩ : PdfMeta))] 1 = some (⟨1, chars "T", none, chars "f.pdf", chars "/p", 1,
        .pending, chars "t", none, none, none⟩ : PdfMeta)) ∧
    ((⟨1, chars "T", none, chars "f.pdf", chars "/p", 1, .pending, chars "t", none, none,
        none⟩ : PdfMeta).user_id ≠ 2) ∧
    get_pdf [((1 : Nat), (⟨1, chars "T", none, chars "f.pdf", chars "/p", 1, .pending, chars "t",
        none, none, none⟩ : PdfMeta))] 2 1 none = .error (.forbidden (chars "Access denied")) ∧
    get_pdf_content [((1 : Nat), (⟨1, chars "T", none, chars "f.pdf", chars "/p", 1, .pending,
        chars "t", none, none, none⟩ : PdfMeta))] 2 1 none =
      .error (.forbidden (chars "Access denied")) ∧
    get_pdf_summary [((1 : Nat), (⟨1, chars "T", none, chars "f.pdf", chars "/p", 1, .pending,
        chars "t", none, none, none⟩ : PdfMeta))] 2 1 none =
      .error (.forbidden (chars "Access denied")) ∧
    (delete_pdf [((1 : Nat), (⟨1, chars "T", none, chars "f.pdf", chars "/p", 1, .pending,
        chars "t", none, none, none⟩ : PdfMeta))] 2 1).result =
      .error (.forbidden (chars "Access denied")) :=
  ⟨by decide, by decide,
    (c5_ownership_checks [((1 : Nat), (⟨1, chars "T", none, chars "f.pdf", chars "/p", 1, .pending,
        chars "t", none, none, none⟩ : PdfMeta))] 2 1 none (chars "x.png") true true).2.1
      (⟨1, chars "T", none, chars "f.pdf", chars "/p", 1, .pending, chars "t", none, none,
        none⟩ : PdfMeta) (by decide) (by decide)⟩

/-- C6 counterexample: a fetch that succeeds with a non-PDF content type
(`text/html`) does not fail the request synchronously — the handler goes on
to create a registry record — because the content-type guard also requires
the URL not to end in `.pdf`, which the earlier validation has already
ruled out. -/
theorem c6_counterexample :
    (pyContains (chars "text/html") (chars "application/pdf") = false) ∧
    (process_pdf_from_url [] 1 (chars "https://example.com/a.pdf") (some (chars "Example Doc"))
      none (chars "t") (chars "u") (.ok (chars "text/html")) (.error [])).db.length = 1 := by
  decide

/-- C6 (amended): a network fetch failure (timeout, connection error,
non-2xx — a `requests.RequestException`) fails the request synchronously
with a client-facing 400, no registry record, and no snapshot write; a
wrong content type alone, however, never fails the request — after
validation the URL always ends in `.pdf`, so the guard is unreachable and a
record is created regardless of content type. -/
theorem c6_fetch_failures (db : Registry) (uid : Nat) (url0 : Str)
    (titleIn descr : Option Str) (now uuid2 : Str) (marker : Except Str MarkerOk) :
    (∀ msg,
      (process_pdf_from_url db uid url0 titleIn descr now uuid2 (.netError msg) marker).db = db ∧
      (process_pdf_from_url db uid url0 titleIn descr now uuid2 (.netError msg) marker).saves = [] ∧
      ∃ d, (process_pdf_from_url db uid url0 titleIn descr now uuid2 (.netError msg)
        marker).result = .error (.badRequest d)) ∧
    (∀ ct, pyEndsWith (pyLower (arxiv_rewrite url0)) (chars ".pdf") = true →
      ∃ m, dict_get (process_pdf_from_url db uid url0 titleIn descr now uuid2 (.ok ct) marker).db
        (assigned_pdf_id db) = some m) := by
  constructor
  · intro msg
    simp only [process_pdf_from_url, process_pdf_from_url_core]
    split
    · exact ⟨rfl, rfl, _, rfl⟩
    · exact ⟨rfl, rfl, _, rfl⟩
  · intro ct h
    simp only [process_pdf_from_url, process_pdf_from_url_core, conv_step_eq, h, Bool.not_true,
      Bool.and_false, Bool.false_eq_true, if_false]
    exact ⟨_, dict_get_set_self _ _ _⟩

/-- Witness for C6: a concrete failed fetch creates nothing; a concrete
successful fetch with any content type creates a record. -/
theorem c6_witness :
    (pyEndsWith (pyLower (arxiv_rewrite (chars "https://example.com/a.pdf"))) (chars ".pdf") =
      true) ∧
    (process_pdf_from_url [] 3 (chars "https://example.com/a.pdf") none none (chars "t")
      (chars "u") (.netError (chars "timeout")) (.error [])).db = [] ∧
    (∃ m, dict_get (process_pdf_from_url [] 3 (chars "https://example.com/a.pdf") none none
      (chars "t") (chars "u") (.ok (chars "text/plain")) (.error [])).db
      (assigned_pdf_id []) = some m) :=
  ⟨by decide,
    ((c6_fetch_failures [] 3 (chars "https://example.com/a.pdf") none none (chars "t") (chars "u")
      (.error [])).1 (chars "timeout")).1,
    (c6_fetch_failures [] 3 (chars "https://example.com/a.pdf") none none (chars "t") (chars "u")
      (.error [])).2 (chars "text/plain") (by decide)⟩

/-- C2: evaluation of the handlers when the conversion step raises — the
upload handler catches the exception, marks the document failed and returns
normally, but the URL handler, after marking the document failed in the
registry, crashes building its response (the name `pdf_details` is unbound
in the failure branch, pdf.py line 379) and the request surfaces an
internal error instead of returning control normally, so the containment
the claim requires is broken on the URL path. -/
theorem c2_url_containment_broken (db : Registry) (uid : Nat) (filename0 url0 : Str)
    (titleForm titleIn descr : Option Str) (now uuid1 ct : Str) (e : PyErr) :
    (pyEndsWith (pyLower filename0) (chars ".pdf") = true →
      ∃ m, (upload_pdf_core db uid filename0 titleForm descr now uuid1 true
          (fun _ => .error e)).result = .ok m ∧ m.status = .failed) ∧
    (pyEndsWith (pyLower (arxiv_rewrite url0)) (chars ".pdf") = true →
      (process_pdf_from_url_core db uid url0 titleIn descr now (.ok ct)
          (fun _ => .error e)).result =
        .error (.internalError
          (chars "Error processing PDF from URL: name pdf_details is not defined")) ∧
      ∃ m, dict_get (process_pdf_from_url_core db uid url0 titleIn descr now (.ok ct)
          (fun _ => .error e)).db (assigned_pdf_id db) = some m ∧ m.status = .failed) := by
  constructor
  · intro h
    simp only [upload_pdf_core, h, Bool.not_true, Bool.false_eq_true, if_false, Bool.not_false,
      if_true]
    exact ⟨_, rfl, rfl⟩
  · intro h
    simp only [process_pdf_from_url_core, h, Bool.not_true, Bool.and_false, Bool.false_eq_true,
      if_false]
    exact ⟨by trivial, _, dict_get_set_self _ _ _, by trivial⟩

/-- Witness for C2 at a concrete upload and URL ingestion whose conversion
step raises. -/
theorem c2_witness :
    (pyEndsWith (pyLower (chars "doc.pdf")) (chars ".pdf") = true) ∧
    (pyEndsWith (pyLower (arxiv_rewrite (chars "https://x.org/a.pdf"))) (chars ".pdf") = true) ∧
    (∃ m, (upload_pdf_core [] 9 (chars "doc.pdf") none none (chars "t") (chars "u1") true
        (fun _ => .error (.typeError []))).result = .ok m ∧ m.status = .failed) ∧
    ((process_pdf_from_url_core [] 9 (chars "https://x.org/a.pdf") none none (chars "t")
        (.ok (chars "application/pdf")) (fun _ => .error (.typeError []))).result =
      .error (.internalError
        (chars "Error processing PDF from URL: name pdf_details is not defined")) ∧
      ∃ m, dict_get (process_pdf_from_url_core [] 9 (chars "https://x.org/a.pdf") none none
          (chars "t") (.ok (chars "application/pdf")) (fun _ => .error (.typeError []))).db
        (assigned_pdf_id []) = some m ∧ m.status = .failed) :=
  ⟨by decide, by decide,
    (c2_url_containment_broken [] 9 (chars "doc.pdf") (chars "https://x.org/a.pdf") none none none
      (chars "t") (chars "u1") (chars "application/pdf") (.typeError [])).1 (by decide),
    (c2_url_containment_broken [] 9 (chars "doc.pdf") (chars "https://x.org/a.pdf") none none none
      (chars "t") (chars "u1") (chars "application/pdf") (.typeError [])).2 (by decide)⟩

/-- C8 counterexample: on the claim's own example markdown the code's title
is the file's basename (`mydoc.pdf`), not `Hello World` — there is no
heading scan anywhere in the conversion service. -/
theorem c8_counterexample :
    (process_pdf_body (chars "/tmp/mydoc.pdf") (chars "u")
        (.ok ⟨chars "# Hello <span>World</span>\nbody text", none, none, none⟩)).summary.title =
      chars "mydoc.pdf" ∧
    spec_extract_title (chars "# Hello <span>World</span>\nbody text") (chars "mydoc.pdf") =
      chars "Hello World" ∧
    chars "mydoc.pdf" ≠ chars "Hello World" := by decide

/-- C8 (amended): the conversion service never scans the markdown for a
heading — for every conversion outcome (success or engine failure) the
summary title is `os.path.basename(file_path)`, extension included, and is
independent of the markdown — whereas the spec's extraction rule (modelled
separately from the spec's words) yields `Hello World` on the spec's
example. -/
theorem c8_title_is_basename :
    (∀ (fp u8 : Str) (marker : Except Str MarkerOk),
      (process_pdf_body fp u8 marker).summary.title = basename fp) ∧
    spec_extract_title (chars "# Hello <span>World</span>\nbody text") (chars "mydoc.pdf") =
      chars "Hello World" := by
  constructor
  · intro fp u8 marker
    cases marker <;> rfl
  · decide

theorem load_dump_roundtrip (db : Registry) : load_db (dump_db db) = embedReg db := by
  induction db with
  | nil => rfl
  | cons hd tl ih =>
    simp only [load_db, dump_db, embedReg, List.map_cons] at ih ⊢
    rw [parseDecimal_decimalChars, ih]

/-- C9: every mutating handler writes the full registry snapshot on each
mutation and the last snapshot equals the final registry, and reloading any
dumped snapshot (simulating a restart) recovers the registry with the
document IDs restored as integer keys. -/
theorem c9_durability (db : Registry) (uid pdf_id : Nat) (filename0 url0 : Str)
    (titleForm titleIn descr : Option Str) (now uuid1 uuid2 ct : Str)
    (marker : Except Str MarkerOk) :
    (∀ db2 : Registry, load_db (dump_db db2) = embedReg db2) ∧
    (pyEndsWith (pyLower filename0) (chars ".pdf") = true →
      ∃ m1 m2 m3 : PdfMeta, m1.status = .pending ∧ m2.status = .processing ∧
        m3.status = .failed ∧
        (upload_pdf db uid filename0 titleForm descr now uuid1 uuid2 true marker).saves =
          [dict_set db (assigned_pdf_id db) m1,
           dict_set (dict_set db (assigned_pdf_id db) m1) (assigned_pdf_id db) m2,
           (upload_pdf db uid filename0 titleForm descr now uuid1 uuid2 true marker).db] ∧
        (upload_pdf db uid filename0 titleForm descr now uuid1 uuid2 true marker).db =
          dict_set (dict_set (dict_set db (assigned_pdf_id db) m1) (assigned_pdf_id db) m2)
            (assigned_pdf_id db) m3) ∧
    (pyEndsWith (pyLower (arxiv_rewrite url0)) (chars ".pdf") = true →
      (process_pdf_from_url db uid url0 titleIn descr now uuid2 (.ok ct) marker).saves.length =
        3 ∧
      (process_pdf_from_url db uid url0 titleIn descr now uuid2 (.ok ct) marker).saves.getLast? =
        some (process_pdf_from_url db uid url0 titleIn descr now uuid2 (.ok ct) marker).db) ∧
    (∀ m, dict_get db pdf_id = some m → m.user_id = uid →
      (delete_pdf db uid pdf_id).saves = [(delete_pdf db uid pdf_id).db] ∧
      (delete_pdf db uid pdf_id).db = dict_del db pdf_id) := by
  refine ⟨load_dump_roundtrip, ?_, ?_, ?_⟩
  · intro h
    simp only [upload_pdf, upload_pdf_core, conv_step_eq, h, Bool.not_true, Bool.false_eq_true,
      if_false, Bool.not_false, if_true]
    exact ⟨_, _, _, rfl, rfl, rfl, rfl, rfl⟩
  · intro h
    simp only [process_pdf_from_url, process_pdf_from_url_core, conv_step_eq, h, Bool.not_true,
      Bool.and_false, Bool.false_eq_true, if_false]
    exact ⟨rfl, rfl⟩
  · intro m hm huid
    simp only [delete_pdf, hm, huid]
    simp

/-- Witness for C9 at a concrete upload, URL ingestion and deletion. -/
theorem c9_witness :
    (pyEndsWith (pyLower (chars "doc.pdf")) (chars ".pdf") = true) ∧
    (pyEndsWith (pyLower (arxiv_rewrite (chars "https://x.org/a.pdf"))) (chars ".pdf") = true) ∧
    (dict_get [((1 : Nat), (⟨1, chars "T", none, chars "f.pdf", chars "/p", 4, .pending, chars "t",
        none, none, none⟩ : PdfMeta))] 1 = some (⟨1, chars "T", none, chars "f.pdf", chars "/p", 4,
        .pending, chars "t", none, none, none⟩ : PdfMeta)) ∧
    (∃ m1 m2 m3 : PdfMeta, m1.status = .pending ∧ m2.status = .processing ∧
      m3.status = .failed ∧
      (upload_pdf [] 4 (chars "doc.pdf") none none (chars "t") (chars "u1") (chars "u2") true
        (.error [])).saves =
        [dict_set [] (assigned_pdf_id []) m1,
         dict_set (dict_set [] (assigned_pdf_id []) m1) (assigned_pdf_id []) m2,
         (upload_pdf [] 4 (chars "doc.pdf") none none (chars "t") (chars "u1") (chars "u2") true
           (.error [])).db] ∧
      (upload_pdf [] 4 (chars "doc.pdf") none none (chars "t") (chars "u1") (chars "u2") true
        (.error [])).db =
        dict_set (dict_set (dict_set [] (assigned_pdf_id []) m1) (assigned_pdf_id []) m2)
          (assigned_pdf_id []) m3) ∧
    ((delete_pdf [((1 : Nat), (⟨1, chars "T", none, chars "f.pdf", chars "/p", 4, .pending,
        chars "t", none, none, none⟩ : PdfMeta))] 4 1).saves =
      [(delete_pdf [((1 : Nat), (⟨1, chars "T", none, chars "f.pdf", chars "/p", 4, .pending,
        chars "t", none, none, none⟩ : PdfMeta))] 4 1).db] ∧
      (delete_pdf [((1 : Nat), (⟨1, chars "T", none, chars "f.pdf", chars "/p", 4, .pending,
        chars "t", none, none, none⟩ : PdfMeta))] 4 1).db =
        dict_del [((1 : Nat), (⟨1, chars "T", none, chars "f.pdf", chars "/p", 4, .pending,
          chars "t", none, none, none⟩ : PdfMeta))] 1) :=
  ⟨by decide, by decide, by decide,
    (c9_durability [] 4 1 (chars "doc.pdf") (chars "https://x.org/a.pdf") none none none
      (chars "t") (chars "u1") (chars "u2") (chars "ct") (.error [])).2.1 (by decide),
    (c9_durability [((1 : Nat), (⟨1, chars "T", none, chars "f.pdf", chars "/p", 4, .pending,
        chars "t", none, none, none⟩ : PdfMeta))] 4 1 (chars "doc.pdf")
      (chars "https://x.org/a.pdf") none none none (chars "t") (chars "u1") (chars "u2")
      (chars "ct") (.error [])).2.2.2
      (⟨1, chars "T", none, chars "f.pdf", chars "/p", 4, .pending, chars "t", none, none,
        none⟩ : PdfMeta) (by decide) (by decide)⟩

/-- C10 counterexample: a URL containing `arxiv.org` and `/abs/` (twice) and
not ending in `.pdf` is left unchanged by the rewrite — the code only
rewrites when splitting on `/abs/` yields exactly two parts — so it is not
rewritten to any `/pdf/...pdf` form. -/
theorem c10_counterexample :
    (pyContains (pyLower (chars "https://arxiv.org/abs/1/abs/2")) (chars "arxiv.org") = true) ∧
    (pyContains (chars "https://arxiv.org/abs/1/abs/2") (chars "/abs/") = true) ∧
    (pyEndsWith (pyLower (chars "https://arxiv.org/abs/1/abs/2")) (chars ".pdf") = false) ∧
    arxiv_rewrite (chars "https://arxiv.org/abs/1/abs/2") =
      chars "https://arxiv.org/abs/1/abs/2" ∧
    pyContains (arxiv_rewrite (chars "https://arxiv.org/abs/1/abs/2")) (chars "/pdf/") =
      false := by decide

/-- C10 (amended): for a URL containing `arxiv.org` (case-insensitively)
and not ending in `.pdf`, not containing `/pdf/`, and containing `/abs/`
exactly once, the effective fetch URL is rewritten to
`https://arxiv.org/pdf/<id>.pdf` where `<id>` is the part after `/abs/`;
URLs with several `/abs/` occurrences are left unchanged (see the
counterexample).  In particular the spec's example rewrites as stated. -/
theorem c10_arxiv_rewrite :
    (∀ url : Str,
      pyContains (pyLower url) (chars "arxiv.org") = true →
      pyEndsWith (pyLower url) (chars ".pdf") = false →
      pyContains url (chars "/pdf/") = false →
      pyContains url (chars "/abs/") = true →
      (pySplit url (chars "/abs/")).length = 2 →
      ∃ pre arxiv_id, pySplit url (chars "/abs/") = [pre, arxiv_id] ∧
        arxiv_rewrite url = chars "https://arxiv.org/pdf/" ++ arxiv_id ++ chars ".pdf") ∧
    arxiv_rewrite (chars "https://arxiv.org/abs/1234.5678") =
      chars "https://arxiv.org/pdf/1234.5678.pdf" := by
  constructor
  · intro url h1 h2 h3 h4 h5
    obtain ⟨a, b, hab⟩ := List.length_eq_two.mp h5
    refine ⟨a, b, hab, ?_⟩
    simp only [arxiv_rewrite, h1, h2, h3, h4, hab, Bool.not_false, Bool.and_self, if_true,
      Bool.false_and, Bool.false_eq_true, if_false, if_true]
  · decide

/-- Witness for C10 at a concrete single-`/abs/` arXiv URL. -/
theorem c10_witness :
    (pyContains (pyLower (chars "https://arxiv.org/abs/1111.2222")) (chars "arxiv.org") = true) ∧
    (∃ pre arxiv_id,
      pySplit (chars "https://arxiv.org/abs/1111.2222") (chars "/abs/") = [pre, arxiv_id] ∧
      arxiv_rewrite (chars "https://arxiv.org/abs/1111.2222") =
        chars "https://arxiv.org/pdf/" ++ arxiv_id ++ chars ".pdf") :=
  ⟨by decide,
    c10_arxiv_rewrite.1 (chars "https://arxiv.org/abs/1111.2222") (by decide) (by decide)
      (by decide) (by decide) (by decide)⟩
